import Mathlib

/-!
Shallow embedding of `src/class/dfu/dfu_mode_device.c` (TinyUSB DFU-mode class
driver) and verification of properties of its protocol state machine.

The C file's companion header `dfu_mode_device.h` (enum values for states,
request codes, functional-attribute bitmasks) is not part of the sources;
those numeric codes are modelled from the design document (§3.2, §3.3, §8)
and marked `Modelled from the spec` below.  Everything else is translated
directly from the C source.
-/

/-- The ten DFU protocol states plus the two runtime (APP) states, as in
`dfu_mode_state_t` (§3.2 of the design document, DFU 1.1 order). -/
inductive DfuState where
  | APP_IDLE
  | APP_DETACH
  | DFU_IDLE
  | DFU_DNLOAD_SYNC
  | DFU_DNBUSY
  | DFU_DNLOAD_IDLE
  | DFU_MANIFEST_SYNC
  | DFU_MANIFEST
  | DFU_MANIFEST_WAIT_RESET
  | DFU_UPLOAD_IDLE
  | DFU_ERROR
deriving DecidableEq

/-- Modelled from the spec: numeric encoding of `dfu_mode_state_t`
(`dfu_mode_device.h` is not in the sources).  §3.2 lists the states in DFU 1.1
order and §8 scenario 4 pins the literal bytes (`DFU_IDLE = 2`,
`DFU_DNLOAD_IDLE = 5`). -/
def dfuStateCode : DfuState → Nat
  | DfuState.APP_IDLE => 0
  | DfuState.APP_DETACH => 1
  | DfuState.DFU_IDLE => 2
  | DfuState.DFU_DNLOAD_SYNC => 3
  | DfuState.DFU_DNBUSY => 4
  | DfuState.DFU_DNLOAD_IDLE => 5
  | DfuState.DFU_MANIFEST_SYNC => 6
  | DfuState.DFU_MANIFEST => 7
  | DfuState.DFU_MANIFEST_WAIT_RESET => 8
  | DfuState.DFU_UPLOAD_IDLE => 9
  | DfuState.DFU_ERROR => 10

/-- Modelled from the spec: request code `DETACH(0)` of §3.3. -/
def DFU_REQUEST_DETACH : Nat := 0

/-- Modelled from the spec: request code `DNLOAD(1)` of §3.3. -/
def DFU_REQUEST_DNLOAD : Nat := 1

/-- Modelled from the spec: request code `UPLOAD(2)` of §3.3. -/
def DFU_REQUEST_UPLOAD : Nat := 2

/-- Modelled from the spec: request code `GETSTATUS(3)` of §3.3. -/
def DFU_REQUEST_GETSTATUS : Nat := 3

/-- Modelled from the spec: request code `CLRSTATUS(4)` of §3.3. -/
def DFU_REQUEST_CLRSTATUS : Nat := 4

/-- Modelled from the spec: request code `GETSTATE(5)` of §3.3. -/
def DFU_REQUEST_GETSTATE : Nat := 5

/-- Modelled from the spec: request code `ABORT(6)` of §3.3. -/
def DFU_REQUEST_ABORT : Nat := 6

/-- Modelled from the spec: DFU functional-attribute bit `CAN_DOWNLOAD`.
§8 scenario 1 pins `attrs = 0x0D = CAN_DOWNLOAD | MANIFESTATION_TOLERANT |
WILL_DETACH`, forcing the DFU 1.1 bit assignment 1/2/4/8. -/
def DFU_FUNC_ATTR_CAN_DOWNLOAD_BITMASK : Nat := 1

/-- Modelled from the spec: DFU functional-attribute bit `CAN_UPLOAD`. -/
def DFU_FUNC_ATTR_CAN_UPLOAD_BITMASK : Nat := 2

/-- Modelled from the spec: DFU functional-attribute bit
`MANIFESTATION_TOLERANT`. -/
def DFU_FUNC_ATTR_MANIFESTATION_TOLERANT_BITMASK : Nat := 4

/-- Modelled from the spec: DFU functional-attribute bit `WILL_DETACH`. -/
def DFU_FUNC_ATTR_WILL_DETACH_BITMASK : Nat := 8

/-- DFU status code OK (first code of the status list in §3.1). -/
def DFU_STATUS_OK : Nat := 0

/-- Standard USB request code for SET_INTERFACE (the dispatcher acknowledges
it so host tools can claim the interface, §4.2). -/
def TUSB_REQ_SET_INTERFACE : Nat := 11

/-- The three stages of a USB control transfer seen by the class dispatcher. -/
inductive CtrlStage where
  | SETUP
  | DATA
  | ACK
deriving DecidableEq

/-- Recipient field of `bmRequestType` (only the interface/other distinction
is consulted by the driver). -/
inductive ReqRecipient where
  | device
  | itf
  | endpointRcpt
  | other
deriving DecidableEq

/-- Type field of `bmRequestType` (standard / class / vendor). -/
inductive ReqType where
  | standard
  | classReq
  | vendor
deriving DecidableEq

/-- A control request as consulted by this driver: the two `bmRequestType`
bit-fields plus `bRequest`, `wValue`, `wLength` (16-bit words as `Nat`). -/
structure ControlRequest where
  recipient : ReqRecipient
  rtype : ReqType
  bRequest : Nat
  wValue : Nat
  wLength : Nat
deriving DecidableEq

/-- The driver's singleton state context `dfu_mode_state_ctx_t`. -/
structure DfuModeStateCtx where
  status : Nat
  state : DfuState
  attrs : Nat
  blk_transfer_in_proc : Bool
  itf_num : Nat
  last_block_num : Nat
  last_transfer_len : Nat
  transfer_buf : List Nat
deriving DecidableEq

/-- Environment of application callbacks for one dispatch: the value each
callback would return, plus a presence flag for each optional (weakly linked)
callback. -/
structure DfuEnv where
  init_attrs : Nat
  usb_reset_present : Bool
  usb_reset_state : DfuState → DfuState
  firmware_valid : Bool
  get_poll_timeout_present : Bool
  poll_timeout : Nat × Nat × Nat
  get_status_desc_present : Bool
  status_desc_index : Nat
  nonstandard_present : Bool
  nonstandard_result : Bool
  upload_retval : Nat → Nat → Nat
  upload_buf : Nat → Nat → List Nat
  data_done : Bool

/-- Downward call into the USB stack made while handling a request. -/
inductive CtrlAction where
  | noAction
  | xfer (bytes : List Nat)
  | xferFromBuf (len : Nat)
  | statusOk
deriving DecidableEq

/-- Result of one dispatch: the updated context, the accept/stall flag
returned to `usbd`, the downward control action, and the two upward calls of
the DNLOAD data-reply path (recorded so their invocation can be reasoned
about). -/
structure StepOut where
  ctx : DfuModeStateCtx
  accept : Bool
  action : CtrlAction
  dnload_data_call : Option (Nat × List Nat × Nat)
  start_poll_call : Option (Nat × Nat × Nat)

/-- A dispatch result with no upward calls. -/
def StepOut.base (c : DfuModeStateCtx) (a : Bool) (act : CtrlAction) : StepOut :=
  { ctx := c, accept := a, action := act, dnload_data_call := none, start_poll_call := none }

/-- The three `bwPollTimeout` bytes: the optional callback's value, or zeros
when it is absent (both call sites of the C use this pattern). -/
def pollBytes (env : DfuEnv) : Nat × Nat × Nat :=
  if env.get_poll_timeout_present then env.poll_timeout else (0, 0, 0)

/-- The six-byte GETSTATUS payload `dfu_status_req_payload_t` as filled by
`dfu_req_getstatus_reply`: `bStatus`, three `bwPollTimeout` bytes, `bState`,
`iString`. -/
def dfu_status_payload (env : DfuEnv) (c : DfuModeStateCtx) : List Nat :=
  [c.status, (pollBytes env).1, (pollBytes env).2.1, (pollBytes env).2.2,
   dfuStateCode c.state,
   if env.get_status_desc_present then env.status_desc_index else 0]

/-- `dfu_req_getstatus_reply`: complete the transfer with the six-byte status
payload. -/
def dfu_req_getstatus_reply (env : DfuEnv) (c : DfuModeStateCtx) : CtrlAction :=
  CtrlAction.xfer (dfu_status_payload env c)

/-- `dfu_req_getstate_reply`: complete the transfer with the one-byte state. -/
def dfu_req_getstate_reply (c : DfuModeStateCtx) : CtrlAction :=
  CtrlAction.xfer [dfuStateCode c.state]

/-- `dfu_req_dnload_setup`: record `wValue`/`wLength` in the bookkeeping and
initiate the data-out phase into `transfer_buf` of length `wLength`.  Note:
the C performs no bound check of `wLength` here. -/
def dfu_req_dnload_setup (c : DfuModeStateCtx) (rq : ControlRequest) :
    DfuModeStateCtx × CtrlAction :=
  ({ c with last_block_num := rq.wValue, last_transfer_len := rq.wLength },
   CtrlAction.xferFromBuf rq.wLength)

/-- `dfu_req_upload`: verify `wLength` against the buffer size (returning 0
with no transfer on failure, as `TU_VERIFY` does), let the application fill
`transfer_buf`, and reply with the returned number of bytes. -/
def dfu_req_upload (bufsize : Nat) (env : DfuEnv) (c : DfuModeStateCtx)
    (block wLength : Nat) : DfuModeStateCtx × Nat × CtrlAction :=
  if wLength ≤ bufsize then
    ({ c with transfer_buf := env.upload_buf block wLength },
     env.upload_retval block wLength,
     CtrlAction.xferFromBuf (env.upload_retval block wLength))
  else
    (c, 0, CtrlAction.noAction)

/-- `dfu_mode_req_dnload_reply`: start the application's poll timer with the
current `bwPollTimeout` bytes, hand the buffer to the application's
DNLOAD-data callback as `(last_block_num, transfer_buf, last_transfer_len)`,
clear `blk_transfer_in_proc` and zero the block bookkeeping. -/
def dfu_mode_req_dnload_reply (env : DfuEnv) (c : DfuModeStateCtx) : StepOut :=
  { ctx := { c with blk_transfer_in_proc := false, last_block_num := 0,
                    last_transfer_len := 0 },
    accept := true,
    action := CtrlAction.noAction,
    dnload_data_call := some (c.last_block_num, c.transfer_buf, c.last_transfer_len),
    start_poll_call := some (pollBytes env) }

/-- `tud_dfu_mode_poll_timeout_done`: the asynchronous timer-expiry entry
point. -/
def tud_dfu_mode_poll_timeout_done (c : DfuModeStateCtx) : DfuModeStateCtx :=
  if c.state = DfuState.DFU_DNBUSY then
    { c with state := DfuState.DFU_DNLOAD_SYNC }
  else if c.state = DfuState.DFU_MANIFEST then
    { c with state :=
        if c.attrs &&& DFU_FUNC_ATTR_MANIFESTATION_TOLERANT_BITMASK = 0 then
          DfuState.DFU_MANIFEST_WAIT_RESET
        else DfuState.DFU_MANIFEST_SYNC }
  else c

/-- `dfu_mode_state_machine`: the (state × request) transition function,
transcribed case-for-case from the C switch.  `accept = false` means the
control pipe is stalled. -/
def dfu_mode_state_machine (bufsize : Nat) (env : DfuEnv) (c : DfuModeStateCtx)
    (rq : ControlRequest) : StepOut :=
  match c.state with
  | DfuState.DFU_IDLE =>
    if rq.bRequest = DFU_REQUEST_DNLOAD then
      if c.attrs &&& DFU_FUNC_ATTR_CAN_DOWNLOAD_BITMASK ≠ 0 ∧ 0 < rq.wLength then
        let c1 := { c with state := DfuState.DFU_DNLOAD_SYNC, blk_transfer_in_proc := true }
        let p := dfu_req_dnload_setup c1 rq
        StepOut.base p.1 true p.2
      else
        StepOut.base { c with state := DfuState.DFU_ERROR } true CtrlAction.noAction
    else if rq.bRequest = DFU_REQUEST_UPLOAD then
      if c.attrs &&& DFU_FUNC_ATTR_CAN_UPLOAD_BITMASK ≠ 0 then
        let u := dfu_req_upload bufsize env
          { c with state := DfuState.DFU_UPLOAD_IDLE } rq.wValue rq.wLength
        StepOut.base u.1 true u.2.2
      else
        StepOut.base { c with state := DfuState.DFU_ERROR } true CtrlAction.noAction
    else if rq.bRequest = DFU_REQUEST_GETSTATUS then
      StepOut.base c true (dfu_req_getstatus_reply env c)
    else if rq.bRequest = DFU_REQUEST_GETSTATE then
      StepOut.base c true (dfu_req_getstate_reply c)
    else if rq.bRequest = DFU_REQUEST_ABORT then
      StepOut.base c true CtrlAction.noAction
    else
      StepOut.base { c with state := DfuState.DFU_ERROR } false CtrlAction.noAction
  | DfuState.DFU_DNLOAD_SYNC =>
    if rq.bRequest = DFU_REQUEST_GETSTATUS then
      if c.blk_transfer_in_proc then
        let c1 := { c with state := DfuState.DFU_DNBUSY }
        StepOut.base c1 true (dfu_req_getstatus_reply env c1)
      else
        let c1 := { c with state := DfuState.DFU_DNLOAD_IDLE }
        StepOut.base c1 true (dfu_req_getstatus_reply env c1)
    else if rq.bRequest = DFU_REQUEST_GETSTATE then
      StepOut.base c true (dfu_req_getstate_reply c)
    else
      StepOut.base { c with state := DfuState.DFU_ERROR } false CtrlAction.noAction
  | DfuState.DFU_DNBUSY =>
    StepOut.base { c with state := DfuState.DFU_ERROR } false CtrlAction.noAction
  | DfuState.DFU_DNLOAD_IDLE =>
    if rq.bRequest = DFU_REQUEST_DNLOAD then
      if c.attrs &&& DFU_FUNC_ATTR_CAN_DOWNLOAD_BITMASK ≠ 0 ∧ 0 < rq.wLength then
        let c1 := { c with state := DfuState.DFU_DNLOAD_SYNC, blk_transfer_in_proc := true }
        let p := dfu_req_dnload_setup c1 rq
        StepOut.base p.1 true p.2
      else
        if env.data_done then
          StepOut.base { c with state := DfuState.DFU_MANIFEST_SYNC } true CtrlAction.statusOk
        else
          StepOut.base { c with state := DfuState.DFU_ERROR } false CtrlAction.noAction
    else if rq.bRequest = DFU_REQUEST_GETSTATUS then
      StepOut.base c true (dfu_req_getstatus_reply env c)
    else if rq.bRequest = DFU_REQUEST_GETSTATE then
      StepOut.base c true (dfu_req_getstate_reply c)
    else if rq.bRequest = DFU_REQUEST_ABORT then
      StepOut.base { c with state := DfuState.DFU_IDLE } true CtrlAction.noAction
    else
      StepOut.base { c with state := DfuState.DFU_ERROR } false CtrlAction.noAction
  | DfuState.DFU_MANIFEST_SYNC =>
    if rq.bRequest = DFU_REQUEST_GETSTATUS then
      if c.attrs &&& DFU_FUNC_ATTR_MANIFESTATION_TOLERANT_BITMASK = 0 then
        let c1 := { c with state := DfuState.DFU_MANIFEST }
        StepOut.base c1 true (dfu_req_getstatus_reply env c1)
      else
        let c1 := if env.firmware_valid then { c with state := DfuState.DFU_IDLE } else c
        StepOut.base c1 true (dfu_req_getstatus_reply env c1)
    else if rq.bRequest = DFU_REQUEST_GETSTATE then
      StepOut.base c true (dfu_req_getstate_reply c)
    else
      StepOut.base { c with state := DfuState.DFU_ERROR } false CtrlAction.noAction
  | DfuState.DFU_MANIFEST =>
    StepOut.base c false CtrlAction.noAction
  | DfuState.DFU_MANIFEST_WAIT_RESET =>
    StepOut.base c false CtrlAction.noAction
  | DfuState.DFU_UPLOAD_IDLE =>
    if rq.bRequest = DFU_REQUEST_UPLOAD then
      let u := dfu_req_upload bufsize env c rq.wValue rq.wLength
      if u.2.1 ≠ rq.wLength then
        StepOut.base { u.1 with state := DfuState.DFU_IDLE } true u.2.2
      else
        StepOut.base u.1 true u.2.2
    else if rq.bRequest = DFU_REQUEST_GETSTATUS then
      StepOut.base c true (dfu_req_getstatus_reply env c)
    else if rq.bRequest = DFU_REQUEST_GETSTATE then
      StepOut.base c true (dfu_req_getstate_reply c)
    else if rq.bRequest = DFU_REQUEST_ABORT then
      StepOut.base { c with state := DfuState.DFU_IDLE } true CtrlAction.noAction
    else
      StepOut.base c false CtrlAction.noAction
  | DfuState.DFU_ERROR =>
    if rq.bRequest = DFU_REQUEST_GETSTATUS then
      StepOut.base c true (dfu_req_getstatus_reply env c)
    else if rq.bRequest = DFU_REQUEST_CLRSTATUS then
      StepOut.base { c with state := DfuState.DFU_IDLE } true CtrlAction.noAction
    else if rq.bRequest = DFU_REQUEST_GETSTATE then
      StepOut.base c true (dfu_req_getstate_reply c)
    else
      StepOut.base c false CtrlAction.noAction
  | _ =>
    StepOut.base { c with state := DfuState.DFU_ERROR } false CtrlAction.noAction

/-- `dfu_mode_control_xfer_cb`: the per-stage dispatcher.  Note the C's DATA
stage guard compares `bRequest` against the state-enum constant
`DFU_DNLOAD_SYNC` (numeric value 3), reproduced here verbatim. -/
def dfu_mode_control_xfer_cb (bufsize : Nat) (env : DfuEnv) (c : DfuModeStateCtx)
    (stage : CtrlStage) (rq : ControlRequest) : StepOut :=
  if stage = CtrlStage.DATA ∧ rq.bRequest = dfuStateCode DfuState.DFU_DNLOAD_SYNC then
    dfu_mode_req_dnload_reply env c
  else if stage ≠ CtrlStage.SETUP then
    StepOut.base c true CtrlAction.noAction
  else if rq.recipient ≠ ReqRecipient.itf then
    StepOut.base c false CtrlAction.noAction
  else if rq.rtype = ReqType.standard ∧ rq.bRequest = TUSB_REQ_SET_INTERFACE then
    StepOut.base c true CtrlAction.statusOk
  else if rq.rtype ≠ ReqType.classReq then
    StepOut.base c false CtrlAction.noAction
  else if rq.bRequest = DFU_REQUEST_DETACH ∨ rq.bRequest = DFU_REQUEST_DNLOAD ∨
          rq.bRequest = DFU_REQUEST_UPLOAD ∨ rq.bRequest = DFU_REQUEST_GETSTATUS ∨
          rq.bRequest = DFU_REQUEST_CLRSTATUS ∨ rq.bRequest = DFU_REQUEST_GETSTATE ∨
          rq.bRequest = DFU_REQUEST_ABORT then
    dfu_mode_state_machine bufsize env c rq
  else if env.nonstandard_present then
    StepOut.base c env.nonstandard_result CtrlAction.noAction
  else
    StepOut.base c false CtrlAction.noAction

/-- `dfu_mode_init`: the singleton context right after driver initialization
(the C static is zero-initialized, so `itf_num` is 0 and the buffer holds
`bufsize` zero bytes). -/
def dfu_mode_init (bufsize : Nat) (env : DfuEnv) : DfuModeStateCtx :=
  { status := DFU_STATUS_OK, state := DfuState.APP_DETACH, attrs := env.init_attrs,
    blk_transfer_in_proc := false, itf_num := 0, last_block_num := 0,
    last_transfer_len := 0, transfer_buf := List.replicate bufsize 0 }

/-- `dfu_mode_reset`: USB bus-reset handling.  Returns the updated context and
whether the reboot-to-runtime callback was invoked. -/
def dfu_mode_reset (env : DfuEnv) (c : DfuModeStateCtx) : DfuModeStateCtx × Bool :=
  let s1 :=
    if c.state = DfuState.APP_DETACH then DfuState.DFU_IDLE
    else if env.usb_reset_present then env.usb_reset_state c.state
    else
      match c.state with
      | DfuState.DFU_IDLE | DfuState.DFU_DNLOAD_SYNC | DfuState.DFU_DNBUSY
      | DfuState.DFU_DNLOAD_IDLE | DfuState.DFU_MANIFEST_SYNC | DfuState.DFU_MANIFEST
      | DfuState.DFU_MANIFEST_WAIT_RESET | DfuState.DFU_UPLOAD_IDLE =>
        if env.firmware_valid then DfuState.APP_IDLE else DfuState.DFU_ERROR
      | _ => DfuState.APP_IDLE
  ({ c with state := s1, status := DFU_STATUS_OK, attrs := env.init_attrs,
            blk_transfer_in_proc := false, last_block_num := 0, last_transfer_len := 0 },
   if s1 = DfuState.APP_IDLE then true else false)

/-- One externally observable event: a control-transfer callback invocation
(with the callback environment in force at that moment) or a poll-timeout
expiry. -/
inductive DfuEvent where
  | ctrl (env : DfuEnv) (stage : CtrlStage) (rq : ControlRequest)
  | timeoutDone

/-- The context after one event. -/
def dfu_step (bufsize : Nat) (c : DfuModeStateCtx) : DfuEvent → DfuModeStateCtx
  | DfuEvent.ctrl env stage rq => (dfu_mode_control_xfer_cb bufsize env c stage rq).ctx
  | DfuEvent.timeoutDone => tud_dfu_mode_poll_timeout_done c

/-- The context after a sequence of events. -/
def dfu_run (bufsize : Nat) (c : DfuModeStateCtx) : List DfuEvent → DfuModeStateCtx
  | [] => c
  | e :: es => dfu_run bufsize (dfu_step bufsize c e) es

/-!  Concrete fixtures used by counterexamples and witnesses. -/

/-- A callback environment with no optional hooks, `attrs = CAN_DOWNLOAD`,
valid firmware and a download-complete application. -/
def envA : DfuEnv :=
  { init_attrs := 1, usb_reset_present := false, usb_reset_state := fun s => s,
    firmware_valid := true, get_poll_timeout_present := false, poll_timeout := (0, 0, 0),
    get_status_desc_present := false, status_desc_index := 0,
    nonstandard_present := false, nonstandard_result := false,
    upload_retval := fun _ w => w, upload_buf := fun _ _ => [],
    data_done := true }

/-- A class request targeting the DFU interface. -/
def reqClass (b v l : Nat) : ControlRequest :=
  { recipient := ReqRecipient.itf, rtype := ReqType.classReq,
    bRequest := b, wValue := v, wLength := l }

/-- A context caught mid-download: one 7-byte block pending in
`DFU_DNLOAD_SYNC` with `blk_transfer_in_proc` set. -/
def ctxMidDnload : DfuModeStateCtx :=
  { status := 0, state := DfuState.DFU_DNLOAD_SYNC, attrs := 1,
    blk_transfer_in_proc := true, itf_num := 0, last_block_num := 5,
    last_transfer_len := 7, transfer_buf := [10, 20, 30, 40, 50, 60, 70] }

/-- The context reached from init + bus reset with a 256-byte buffer. -/
def ctxStart256 : DfuModeStateCtx := (dfu_mode_reset envA (dfu_mode_init 256 envA)).1

/-- Dispatch of an oversized DNLOAD (wLength 1024 against a 256-byte buffer)
in `DFU_IDLE`. -/
def c1out : StepOut :=
  dfu_mode_control_xfer_cb 256 envA ctxStart256 CtrlStage.SETUP
    (reqClass DFU_REQUEST_DNLOAD 0 1024)

/-- Claim C1 (code bug): the claimed bound `wLength ≤ TRANSFER_BUFFER_SIZE`
is not enforced at DNLOAD setup entry.  With buffer size 256, a DNLOAD of
wLength 1024 in the reachable post-reset state `DFU_IDLE` is accepted (no
stall, no `DFU_ERROR`), a 1024-byte data-out into the 256-byte buffer is
initiated, and the reachable successor state records
`last_transfer_len = 1024 > 256`, violating the claimed invariant. -/
theorem dnload_setup_has_no_length_bound :
    c1out.accept = true ∧ c1out.ctx.state = DfuState.DFU_DNLOAD_SYNC ∧
    c1out.ctx.last_transfer_len = 1024 ∧ c1out.action = CtrlAction.xferFromBuf 1024 ∧
    256 < c1out.ctx.last_transfer_len := by
  refine ⟨rfl, rfl, rfl, rfl, ?_⟩
  decide

/-- Claim C2 (code bug): at the DATA stage of a DNLOAD control transfer
(`bRequest = 1`), the dispatcher performs none of the claimed actions — the
context (including `blk_transfer_in_proc` and the block bookkeeping) is
untouched, no DNLOAD-data callback and no poll-timer start happen — because
the C guards the data-reply path with the state-enum constant
`DFU_DNLOAD_SYNC` (value 3, which is GETSTATUS's request code) instead of
`DFU_REQUEST_DNLOAD`; the second conjunct shows the path firing at
`bRequest = 3` instead. -/
theorem data_stage_dnload_is_ignored :
    dfu_mode_control_xfer_cb 256 envA ctxMidDnload CtrlStage.DATA
        (reqClass DFU_REQUEST_DNLOAD 5 7) =
      StepOut.base ctxMidDnload true CtrlAction.noAction ∧
    (dfu_mode_control_xfer_cb 256 envA ctxMidDnload CtrlStage.DATA
        (reqClass DFU_REQUEST_GETSTATUS 5 7)).dnload_data_call =
      some (5, [10, 20, 30, 40, 50, 60, 70], 7) := by
  exact ⟨rfl, rfl⟩

/-- The context reached from init + bus reset (4-byte buffer) by a DNLOAD
setup of one 2-byte block followed by a DETACH request. -/
def c3cex : DfuModeStateCtx :=
  dfu_run 4 (dfu_mode_reset envA (dfu_mode_init 4 envA)).1
    [DfuEvent.ctrl envA CtrlStage.SETUP (reqClass DFU_REQUEST_DNLOAD 0 2),
     DfuEvent.ctrl envA CtrlStage.SETUP (reqClass DFU_REQUEST_DETACH 0 0)]

/-- Claim C3 counterexample: a reachable state (DNLOAD setup accepted in
`DFU_IDLE`, then a DETACH, which stalls and moves to `DFU_ERROR` without
clearing the flag) has `blk_transfer_in_proc = true` while the state is
neither `DFU_DNLOAD_SYNC` nor `DFU_DNBUSY`. -/
theorem blk_flag_survives_into_error :
    c3cex.blk_transfer_in_proc = true ∧ c3cex.state = DfuState.DFU_ERROR ∧
    ¬ (c3cex.state = DfuState.DFU_DNLOAD_SYNC ∨ c3cex.state = DfuState.DFU_DNBUSY) := by
  refine ⟨rfl, rfl, ?_⟩
  decide

/-!  Reachability invariants. -/

/-- The states in which `blk_transfer_in_proc` can actually be set: besides
the two claimed ones, the stall/error paths and `CLRSTATUS` never clear the
flag, so it survives into `DFU_ERROR`, from there into `DFU_IDLE`, and from
there into `DFU_UPLOAD_IDLE`. -/
def blkStatesOk (s : DfuState) : Prop :=
  s = DfuState.DFU_IDLE ∨ s = DfuState.DFU_DNLOAD_SYNC ∨ s = DfuState.DFU_DNBUSY ∨
  s = DfuState.DFU_UPLOAD_IDLE ∨ s = DfuState.DFU_ERROR

/-- Invariant: the block-transfer flag only ever holds in `blkStatesOk`
states. -/
def blkInv (c : DfuModeStateCtx) : Prop :=
  c.blk_transfer_in_proc = true → blkStatesOk c.state

theorem dfu_mode_state_machine_blkInv (bufsize : Nat) (env : DfuEnv)
    (c : DfuModeStateCtx) (rq : ControlRequest) (h : blkInv c) :
    blkInv (dfu_mode_state_machine bufsize env c rq).ctx := by
  simp only [blkInv, blkStatesOk] at h ⊢
  cases hs : c.state <;>
    simp only [dfu_mode_state_machine, hs, dfu_req_dnload_setup, dfu_req_upload,
      StepOut.base] <;>
    (try split_ifs) <;>
    simp_all

theorem dfu_mode_control_xfer_cb_blkInv (bufsize : Nat) (env : DfuEnv)
    (c : DfuModeStateCtx) (stage : CtrlStage) (rq : ControlRequest) (h : blkInv c) :
    blkInv (dfu_mode_control_xfer_cb bufsize env c stage rq).ctx := by
  simp only [dfu_mode_control_xfer_cb]
  split_ifs
  case _ => intro hb; simp [dfu_mode_req_dnload_reply] at hb
  case _ => exact h
  case _ => exact h
  case _ => exact h
  case _ => exact h
  case _ => exact dfu_mode_state_machine_blkInv bufsize env c rq h
  case _ => exact h
  case _ => exact h

theorem dfu_step_blkInv (bufsize : Nat) (c : DfuModeStateCtx) (e : DfuEvent)
    (h : blkInv c) : blkInv (dfu_step bufsize c e) := by
  cases e with
  | ctrl env stage rq => exact dfu_mode_control_xfer_cb_blkInv bufsize env c stage rq h
  | timeoutDone =>
    simp only [dfu_step, tud_dfu_mode_poll_timeout_done]
    split_ifs <;> simp_all [blkInv, blkStatesOk]

theorem dfu_run_blkInv (bufsize : Nat) (evs : List DfuEvent) :
    ∀ c : DfuModeStateCtx, blkInv c → blkInv (dfu_run bufsize c evs) := by
  induction evs with
  | nil => intro c h; exact h
  | cons e es ih =>
    intro c h
    exact ih _ (dfu_step_blkInv bufsize c e h)

/-- Claim C3 (amended): along every event sequence from init followed by bus
reset, `blk_transfer_in_proc = true` implies the state is one of `DFU_IDLE`,
`DFU_DNLOAD_SYNC`, `DFU_DNBUSY`, `DFU_UPLOAD_IDLE`, `DFU_ERROR`; in
particular the flag is always false in `DFU_DNLOAD_IDLE`, in the three
manifestation states and in the APP states. -/
theorem blk_flag_confined (bufsize : Nat) (e0 e1 : DfuEnv) (evs : List DfuEvent) :
    blkInv (dfu_run bufsize (dfu_mode_reset e1 (dfu_mode_init bufsize e0)).1 evs) := by
  apply dfu_run_blkInv
  intro hb
  simp [dfu_mode_reset] at hb

/-- The state is neither of the two runtime (APP) states. -/
def noAppState (c : DfuModeStateCtx) : Prop :=
  c.state ≠ DfuState.APP_IDLE ∧ c.state ≠ DfuState.APP_DETACH

theorem dfu_mode_state_machine_noApp (bufsize : Nat) (env : DfuEnv)
    (c : DfuModeStateCtx) (rq : ControlRequest) (h : noAppState c) :
    noAppState (dfu_mode_state_machine bufsize env c rq).ctx := by
  simp only [noAppState] at h ⊢
  cases hs : c.state <;>
    simp only [dfu_mode_state_machine, hs, dfu_req_dnload_setup, dfu_req_upload,
      StepOut.base] <;>
    (try split_ifs) <;>
    simp_all

theorem dfu_mode_control_xfer_cb_noApp (bufsize : Nat) (env : DfuEnv)
    (c : DfuModeStateCtx) (stage : CtrlStage) (rq : ControlRequest) (h : noAppState c) :
    noAppState (dfu_mode_control_xfer_cb bufsize env c stage rq).ctx := by
  simp only [dfu_mode_control_xfer_cb]
  split_ifs
  case _ => exact ⟨h.1, h.2⟩
  case _ => exact h
  case _ => exact h
  case _ => exact h
  case _ => exact h
  case _ => exact dfu_mode_state_machine_noApp bufsize env c rq h
  case _ => exact h
  case _ => exact h

theorem dfu_step_noApp (bufsize : Nat) (c : DfuModeStateCtx) (e : DfuEvent)
    (h : noAppState c) : noAppState (dfu_step bufsize c e) := by
  cases e with
  | ctrl env stage rq => exact dfu_mode_control_xfer_cb_noApp bufsize env c stage rq h
  | timeoutDone =>
    simp only [noAppState] at h ⊢
    simp only [dfu_step, tud_dfu_mode_poll_timeout_done]
    split_ifs <;> simp_all

theorem dfu_run_noApp (bufsize : Nat) (evs : List DfuEvent) :
    ∀ c : DfuModeStateCtx, noAppState c → noAppState (dfu_run bufsize c evs) := by
  induction evs with
  | nil => intro c h; exact h
  | cons e es ih =>
    intro c h
    exact ih _ (dfu_step_noApp bufsize c e h)

/-- Claim C8: for any event sequence of control-transfer callbacks and
timeout-done calls (no bus reset), starting in a state that is neither
`APP_IDLE` nor `APP_DETACH`, the state after every prefix of the sequence is
still neither `APP_IDLE` nor `APP_DETACH`. -/
theorem requests_never_enter_app_states (bufsize : Nat) (c : DfuModeStateCtx)
    (evs : List DfuEvent) (h : noAppState c) :
    ∀ pre suf : List DfuEvent, evs = pre ++ suf → noAppState (dfu_run bufsize c pre) := by
  intro pre suf hsplit
  exact dfu_run_noApp bufsize pre c h

/-- Witness for C8 at a concrete input: from `DFU_IDLE` (the post-reset
context), a DETACH request followed by a timeout-done leaves the state
outside the APP pair. -/
theorem requests_never_enter_app_states_witness :
    noAppState (dfu_run 256 ctxStart256
      [DfuEvent.ctrl envA CtrlStage.SETUP (reqClass DFU_REQUEST_DETACH 0 0)]) := by
  exact requests_never_enter_app_states 256 ctxStart256
    [DfuEvent.ctrl envA CtrlStage.SETUP (reqClass DFU_REQUEST_DETACH 0 0),
     DfuEvent.timeoutDone]
    (by constructor <;> decide)
    [DfuEvent.ctrl envA CtrlStage.SETUP (reqClass DFU_REQUEST_DETACH 0 0)]
    [DfuEvent.timeoutDone] rfl

/-- Claim C4: in `DFU_DNLOAD_SYNC`, a GETSTATUS moves to `DFU_DNBUSY` when
`blk_transfer_in_proc` is true and to `DFU_DNLOAD_IDLE` when it is false; in
both cases it replies with the status payload built from the post-transition
context, whose `bState` byte (index 4) is the code of the post-transition
state. -/
theorem dnload_sync_getstatus (bufsize : Nat) (env : DfuEnv) (c : DfuModeStateCtx)
    (rq : ControlRequest) (hs : c.state = DfuState.DFU_DNLOAD_SYNC)
    (hb : rq.bRequest = DFU_REQUEST_GETSTATUS) :
    (dfu_mode_state_machine bufsize env c rq).ctx.state =
      (if c.blk_transfer_in_proc then DfuState.DFU_DNBUSY else DfuState.DFU_DNLOAD_IDLE) ∧
    (dfu_mode_state_machine bufsize env c rq).accept = true ∧
    (dfu_mode_state_machine bufsize env c rq).action =
      CtrlAction.xfer (dfu_status_payload env (dfu_mode_state_machine bufsize env c rq).ctx) ∧
    (dfu_status_payload env (dfu_mode_state_machine bufsize env c rq).ctx).get? 4 =
      some (dfuStateCode (dfu_mode_state_machine bufsize env c rq).ctx.state) := by
  cases hblk : c.blk_transfer_in_proc <;>
    simp [dfu_mode_state_machine, hs, hb, hblk, StepOut.base, dfu_req_getstatus_reply,
      dfu_status_payload, DFU_REQUEST_DNLOAD, DFU_REQUEST_UPLOAD, DFU_REQUEST_GETSTATUS,
      DFU_REQUEST_GETSTATE]

/-- Witness for C4 at a concrete input: with the block still in flight, the
GETSTATUS lands in `DFU_DNBUSY`. -/
theorem dnload_sync_getstatus_witness :
    (dfu_mode_state_machine 256 envA ctxMidDnload
        (reqClass DFU_REQUEST_GETSTATUS 0 0)).ctx.state = DfuState.DFU_DNBUSY := by
  have h := (dnload_sync_getstatus 256 envA ctxMidDnload
    (reqClass DFU_REQUEST_GETSTATUS 0 0) rfl rfl).1
  simpa [ctxMidDnload] using h

/-- Claim C5: in `DFU_DNLOAD_IDLE`, a DNLOAD with `wLength = 0` ends the
download: when the device-data-done callback returns true the state becomes
`DFU_MANIFEST_SYNC` and the transfer is acknowledged with a status-stage OK;
when it returns false the request is stalled and the state becomes
`DFU_ERROR`. -/
theorem dnload_idle_zero_length_dnload (bufsize : Nat) (env : DfuEnv)
    (c : DfuModeStateCtx) (rq : ControlRequest)
    (hs : c.state = DfuState.DFU_DNLOAD_IDLE) (hb : rq.bRequest = DFU_REQUEST_DNLOAD)
    (hl : rq.wLength = 0) :
    (env.data_done = true →
      (dfu_mode_state_machine bufsize env c rq).ctx.state = DfuState.DFU_MANIFEST_SYNC ∧
      (dfu_mode_state_machine bufsize env c rq).accept = true ∧
      (dfu_mode_state_machine bufsize env c rq).action = CtrlAction.statusOk) ∧
    (env.data_done = false →
      (dfu_mode_state_machine bufsize env c rq).ctx.state = DfuState.DFU_ERROR ∧
      (dfu_mode_state_machine bufsize env c rq).accept = false) := by
  cases hd : env.data_done <;>
    simp [dfu_mode_state_machine, hs, hb, hl, hd, StepOut.base, DFU_REQUEST_DNLOAD]

/-- A context idling between download blocks. -/
def ctxDnIdle : DfuModeStateCtx :=
  { status := 0, state := DfuState.DFU_DNLOAD_IDLE, attrs := 1,
    blk_transfer_in_proc := false, itf_num := 0, last_block_num := 3,
    last_transfer_len := 0, transfer_buf := [1, 2] }

/-- Witness for C5 at a concrete input: the download-complete path. -/
theorem dnload_idle_zero_length_dnload_witness :
    (dfu_mode_state_machine 256 envA ctxDnIdle
        (reqClass DFU_REQUEST_DNLOAD 4 0)).ctx.state = DfuState.DFU_MANIFEST_SYNC :=
  ((dnload_idle_zero_length_dnload 256 envA ctxDnIdle
      (reqClass DFU_REQUEST_DNLOAD 4 0) rfl rfl rfl).1 rfl).1

/-- Claim C6: the timeout-done operation moves `DFU_DNBUSY` to
`DFU_DNLOAD_SYNC`; moves `DFU_MANIFEST` to `DFU_MANIFEST_WAIT_RESET` when the
manifestation-tolerant attribute bit is clear and to `DFU_MANIFEST_SYNC` when
it is set; and leaves the context untouched in every other state. -/
theorem poll_timeout_done_transitions (c : DfuModeStateCtx) :
    (c.state = DfuState.DFU_DNBUSY →
      tud_dfu_mode_poll_timeout_done c = { c with state := DfuState.DFU_DNLOAD_SYNC }) ∧
    (c.state = DfuState.DFU_MANIFEST →
      tud_dfu_mode_poll_timeout_done c =
        { c with state :=
            if c.attrs &&& DFU_FUNC_ATTR_MANIFESTATION_TOLERANT_BITMASK = 0 then
              DfuState.DFU_MANIFEST_WAIT_RESET
            else DfuState.DFU_MANIFEST_SYNC }) ∧
    (c.state ≠ DfuState.DFU_DNBUSY → c.state ≠ DfuState.DFU_MANIFEST →
      tud_dfu_mode_poll_timeout_done c = c) := by
  refine ⟨fun h1 => ?_, fun h1 => ?_, fun h1 h2 => ?_⟩
  · simp [tud_dfu_mode_poll_timeout_done, h1]
  · simp [tud_dfu_mode_poll_timeout_done, h1]
  · simp [tud_dfu_mode_poll_timeout_done, h1, h2]

/-- A context waiting out a flash write in `DFU_DNBUSY`. -/
def ctxBusy : DfuModeStateCtx :=
  { status := 0, state := DfuState.DFU_DNBUSY, attrs := 5,
    blk_transfer_in_proc := true, itf_num := 0, last_block_num := 2,
    last_transfer_len := 4, transfer_buf := [9, 9, 9, 9] }

/-- Witness for C6 at a concrete input: timeout in `DFU_DNBUSY`. -/
theorem poll_timeout_done_transitions_witness :
    tud_dfu_mode_poll_timeout_done ctxBusy = { ctxBusy with state := DfuState.DFU_DNLOAD_SYNC } :=
  (poll_timeout_done_transitions ctxBusy).1 rfl

/-- The eight DFU-mode transfer states: every state except the two APP states
and `DFU_ERROR`. -/
def isDfuTransferState (s : DfuState) : Prop :=
  s = DfuState.DFU_IDLE ∨ s = DfuState.DFU_DNLOAD_SYNC ∨ s = DfuState.DFU_DNBUSY ∨
  s = DfuState.DFU_DNLOAD_IDLE ∨ s = DfuState.DFU_MANIFEST_SYNC ∨
  s = DfuState.DFU_MANIFEST ∨ s = DfuState.DFU_MANIFEST_WAIT_RESET ∨
  s = DfuState.DFU_UPLOAD_IDLE

/-- Claim C7: bus reset takes `APP_DETACH` to `DFU_IDLE`; absent the optional
reset hook it takes any DFU transfer state to `APP_IDLE` exactly when the
firmware-validity callback returns true (else `DFU_ERROR`) and takes
`DFU_ERROR` (or the out-of-protocol `APP_IDLE`, the only inhabitant of the
C switch's default) to `APP_IDLE` unconditionally; the reboot-to-runtime
callback fires exactly when the computed state is `APP_IDLE`; and on every
path the status is reset to OK and the block bookkeeping zeroed. -/
theorem reset_behavior (env : DfuEnv) (c : DfuModeStateCtx) :
    (c.state = DfuState.APP_DETACH → (dfu_mode_reset env c).1.state = DfuState.DFU_IDLE) ∧
    (env.usb_reset_present = false → isDfuTransferState c.state →
      (dfu_mode_reset env c).1.state =
        (if env.firmware_valid then DfuState.APP_IDLE else DfuState.DFU_ERROR)) ∧
    (env.usb_reset_present = false →
      (c.state = DfuState.DFU_ERROR ∨ c.state = DfuState.APP_IDLE) →
      (dfu_mode_reset env c).1.state = DfuState.APP_IDLE) ∧
    ((dfu_mode_reset env c).2 = true ↔ (dfu_mode_reset env c).1.state = DfuState.APP_IDLE) ∧
    (dfu_mode_reset env c).1.status = DFU_STATUS_OK ∧
    (dfu_mode_reset env c).1.blk_transfer_in_proc = false ∧
    (dfu_mode_reset env c).1.last_block_num = 0 ∧
    (dfu_mode_reset env c).1.last_transfer_len = 0 := by
  cases hs : c.state <;>
    simp only [dfu_mode_reset, hs, isDfuTransferState, DFU_STATUS_OK] <;>
    (try split_ifs) <;>
    simp_all

/-- Witness for C7 at a concrete input: hook absent, valid firmware, reset
from `DFU_IDLE` lands in `APP_IDLE`. -/
theorem reset_behavior_witness :
    (dfu_mode_reset envA ctxStart256).1.state = DfuState.APP_IDLE := by
  have h := (reset_behavior envA ctxStart256).2.1 rfl (Or.inl rfl)
  simpa [envA] using h

/-- All context fields other than `state` agree between `c` and the updated
context. -/
def frameUnchanged (c cNew : DfuModeStateCtx) : Prop :=
  cNew.status = c.status ∧ cNew.attrs = c.attrs ∧
  cNew.blk_transfer_in_proc = c.blk_transfer_in_proc ∧ cNew.itf_num = c.itf_num ∧
  cNew.last_block_num = c.last_block_num ∧ cNew.last_transfer_len = c.last_transfer_len ∧
  cNew.transfer_buf = c.transfer_buf

theorem frameUnchanged_refl (c : DfuModeStateCtx) : frameUnchanged c c :=
  ⟨rfl, rfl, rfl, rfl, rfl, rfl, rfl⟩

theorem dfu_mode_state_machine_stall_frame (bufsize : Nat) (env : DfuEnv)
    (c : DfuModeStateCtx) (rq : ControlRequest) :
    (dfu_mode_state_machine bufsize env c rq).accept = true ∨
    frameUnchanged c (dfu_mode_state_machine bufsize env c rq).ctx := by
  cases hs : c.state <;>
    simp only [dfu_mode_state_machine, hs, dfu_req_dnload_setup, dfu_req_upload,
      StepOut.base] <;>
    (try split_ifs) <;>
    simp_all [frameUnchanged]

/-- Claim C9: whenever a dispatch is answered with a stall (the dispatcher or
the state machine returns reject), every field of the state context other
than `state` — status, attrs, `blk_transfer_in_proc`, `itf_num`,
`last_block_num`, `last_transfer_len` and the transfer buffer — is left
unchanged by that dispatch. -/
theorem stall_leaves_context_frame (bufsize : Nat) (env : DfuEnv)
    (c : DfuModeStateCtx) (stage : CtrlStage) (rq : ControlRequest)
    (h : (dfu_mode_control_xfer_cb bufsize env c stage rq).accept = false) :
    frameUnchanged c (dfu_mode_control_xfer_cb bufsize env c stage rq).ctx := by
  simp only [dfu_mode_control_xfer_cb] at h ⊢
  split_ifs at h ⊢
  case _ => simp [dfu_mode_req_dnload_reply] at h
  case _ => exact frameUnchanged_refl c
  case _ => exact frameUnchanged_refl c
  case _ => exact frameUnchanged_refl c
  case _ => exact frameUnchanged_refl c
  case _ =>
    rcases dfu_mode_state_machine_stall_frame bufsize env c rq with ha | hf
    · rw [ha] at h; cases h
    · exact hf
  case _ => exact frameUnchanged_refl c
  case _ => exact frameUnchanged_refl c

/-- Witness for C9 at a concrete input: a DETACH in `DFU_DNLOAD_SYNC` stalls
(and moves to `DFU_ERROR`) with every non-state field intact. -/
theorem stall_leaves_context_frame_witness :
    frameUnchanged ctxMidDnload
      (dfu_mode_control_xfer_cb 256 envA ctxMidDnload CtrlStage.SETUP
        (reqClass DFU_REQUEST_DETACH 0 0)).ctx :=
  stall_leaves_context_frame 256 envA ctxMidDnload CtrlStage.SETUP
    (reqClass DFU_REQUEST_DETACH 0 0) rfl

/-- Claim C10: in `DFU_ERROR`, a CLRSTATUS sets the state to `DFU_IDLE` and
modifies nothing else — in particular `status` keeps the prior error code —
and a subsequent GETSTATUS (under any callback environment) replies with a
payload whose `bStatus` byte (index 0) is still that prior code. -/
theorem error_clrstatus_keeps_status (bufsize : Nat) (env env2 : DfuEnv)
    (c : DfuModeStateCtx) (rq rq2 : ControlRequest)
    (hs : c.state = DfuState.DFU_ERROR) (hb : rq.bRequest = DFU_REQUEST_CLRSTATUS)
    (hb2 : rq2.bRequest = DFU_REQUEST_GETSTATUS) :
    (dfu_mode_state_machine bufsize env c rq).ctx = { c with state := DfuState.DFU_IDLE } ∧
    (dfu_mode_state_machine bufsize env c rq).accept = true ∧
    (dfu_mode_state_machine bufsize env2
        (dfu_mode_state_machine bufsize env c rq).ctx rq2).action =
      CtrlAction.xfer (dfu_status_payload env2 { c with state := DfuState.DFU_IDLE }) ∧
    (dfu_status_payload env2 { c with state := DfuState.DFU_IDLE }).get? 0 = some c.status := by
  have h1 : (dfu_mode_state_machine bufsize env c rq).ctx =
      { c with state := DfuState.DFU_IDLE } := by
    simp [dfu_mode_state_machine, hs, hb, StepOut.base,
      DFU_REQUEST_GETSTATUS, DFU_REQUEST_CLRSTATUS]
  refine ⟨h1, ?_, ?_, ?_⟩
  · simp [dfu_mode_state_machine, hs, hb, StepOut.base,
      DFU_REQUEST_GETSTATUS, DFU_REQUEST_CLRSTATUS]
  · rw [h1]
    simp [dfu_mode_state_machine, hb2, StepOut.base, dfu_req_getstatus_reply,
      DFU_REQUEST_DNLOAD, DFU_REQUEST_UPLOAD, DFU_REQUEST_GETSTATUS]
  · simp [dfu_status_payload]

/-- A context in `DFU_ERROR` holding the status code 8 (errADDRESS). -/
def ctxErrW : DfuModeStateCtx :=
  { status := 8, state := DfuState.DFU_ERROR, attrs := 1,
    blk_transfer_in_proc := false, itf_num := 0, last_block_num := 0,
    last_transfer_len := 0, transfer_buf := [] }

/-- Witness for C10 at a concrete input. -/
theorem error_clrstatus_keeps_status_witness :
    (dfu_mode_state_machine 256 envA ctxErrW
        (reqClass DFU_REQUEST_CLRSTATUS 0 0)).ctx =
      { ctxErrW with state := DfuState.DFU_IDLE } ∧
    (dfu_status_payload envA { ctxErrW with state := DfuState.DFU_IDLE }).get? 0 = some 8 := by
  have h := error_clrstatus_keeps_status 256 envA envA ctxErrW
    (reqClass DFU_REQUEST_CLRSTATUS 0 0) (reqClass DFU_REQUEST_GETSTATUS 0 0) rfl rfl rfl
  exact ⟨h.1, h.2.2.2⟩

/-- Witness for the amended C3 at a concrete input: the counterexample trace
itself satisfies the corrected invariant. -/
theorem blk_flag_confined_witness :
    blkInv (dfu_run 4 (dfu_mode_reset envA (dfu_mode_init 4 envA)).1
      [DfuEvent.ctrl envA CtrlStage.SETUP (reqClass DFU_REQUEST_DNLOAD 0 2),
       DfuEvent.ctrl envA CtrlStage.SETUP (reqClass DFU_REQUEST_DETACH 0 0)]) :=
  blk_flag_confined 4 envA envA
    [DfuEvent.ctrl envA CtrlStage.SETUP (reqClass DFU_REQUEST_DNLOAD 0 2),
     DfuEvent.ctrl envA CtrlStage.SETUP (reqClass DFU_REQUEST_DETACH 0 0)]
